import Mathlib

/-!
Shallow embedding of the original logic of the `tree` notebook
(`src/nb/tree.ipynb`): the record transformer `german_lp`, the
categorical-feature registry `german_cfi`, the misclassification-rate
computation of the hyperparameter sweep, and the sweep loop itself.

Raw records are association lists from field names to integer values
(modelling the Python `dict` produced by `x.asDict()`); a missing key,
which in Python raises `KeyError`, is modelled by `Option` (`none`).
Float division by zero, which in Python raises `ZeroDivisionError`, is
likewise modelled by `none`, with exact rationals in place of floats.
-/

/-- A labeled example: `pyspark.mllib.regression.LabeledPoint`, an
immutable pair of a label and a feature vector. -/
structure LabeledPoint where
  label : Int
  features : List Int
deriving Repr, DecidableEq

/-- A raw record, as produced by `x.asDict()`: a mapping from field
names to integer values. -/
abbrev RawRecord : Type := List (String × Int)

/-- The record transformer of the notebook:

```python
def german_lp(x):
    vals=x.asDict()
    label=vals['cred']
    feats=[vals['acct_bal']-1, vals['dur_cred'], vals['pay_stat'],
           vals['purpose'], vals['cred_amt'], vals['value']-1,
           vals['len_emp']-1, vals['install_pc']-1, vals['sex_married']-1,
           vals['guarantors']-1, vals['dur_addr']-1, vals['max_val']-1,
           vals['age'], vals['concurr']-1, vals['typ_aprtmnt']-1,
           vals['no_creds']-1, vals['occupation']-1, vals['no_dep']-1,
           vals['telephone']-1, vals['foreign_wkr']-1]
    return LabeledPoint(label, feats)
```

Each `vals[k]` access raises `KeyError` when `k` is absent, so the
transformer is modelled in `Option`: it returns a labeled point exactly
when every access succeeds (expressed as one simultaneous match on the
21 lookups, which in `Option` is equivalent to the source's sequence of
accesses; `x.asDict()` is the identity in this model), and `none` as
soon as any required key is missing. -/
def german_lp (x : RawRecord) : Option LabeledPoint :=
  match x.lookup "cred", x.lookup "acct_bal", x.lookup "dur_cred",
      x.lookup "pay_stat", x.lookup "purpose", x.lookup "cred_amt",
      x.lookup "value", x.lookup "len_emp", x.lookup "install_pc",
      x.lookup "sex_married", x.lookup "guarantors",
      x.lookup "dur_addr", x.lookup "max_val", x.lookup "age",
      x.lookup "concurr", x.lookup "typ_aprtmnt",
      x.lookup "no_creds", x.lookup "occupation",
      x.lookup "no_dep", x.lookup "telephone",
      x.lookup "foreign_wkr" with
  | some label, some acct_bal, some dur_cred, some pay_stat, some purpose,
    some cred_amt, some value, some len_emp, some install_pc,
    some sex_married, some guarantors, some dur_addr, some max_val,
    some age, some concurr, some typ_aprtmnt, some no_creds,
    some occupation, some no_dep, some telephone, some foreign_wkr =>
      some { label := label,
             features :=
               [acct_bal - 1, dur_cred, pay_stat, purpose, cred_amt,
                value - 1, len_emp - 1, install_pc - 1, sex_married - 1,
                guarantors - 1, dur_addr - 1, max_val - 1, age,
                concurr - 1, typ_aprtmnt - 1, no_creds - 1,
                occupation - 1, no_dep - 1, telephone - 1,
                foreign_wkr - 1] }
  | _, _, _, _, _, _, _, _, _, _, _, _, _, _, _, _, _, _, _, _, _ => none

/-- The categorical feature registry of the notebook:
`german_cfi = {0:4,5:5,6:5,7:4,8:4,9:3,10:4,11:4,13:3,14:3,15:4,16:4,17:2,18:2,19:2}`,
a mapping from feature index to category count. -/
def german_cfi : List (Nat × Nat) :=
  [(0, 4), (5, 5), (6, 5), (7, 4), (8, 4), (9, 3), (10, 4), (11, 4),
   (13, 3), (14, 3), (15, 4), (16, 4), (17, 2), (18, 2), (19, 2)]

/-- The required fields of a raw record: the label field `cred`
followed by the 20 feature fields, in the transformer's access order. -/
def requiredFields : List String :=
  ["cred", "acct_bal", "dur_cred", "pay_stat", "purpose", "cred_amt",
   "value", "len_emp", "install_pc", "sex_married", "guarantors",
   "dur_addr", "max_val", "age", "concurr", "typ_aprtmnt", "no_creds",
   "occupation", "no_dep", "telephone", "foreign_wkr"]

/-- The 20 feature fields in feature-vector order: position `i` of the
output feature vector is built from field `featureFieldNames[i]`. -/
def featureFieldNames : List String :=
  ["acct_bal", "dur_cred", "pay_stat", "purpose", "cred_amt", "value",
   "len_emp", "install_pc", "sex_married", "guarantors", "dur_addr",
   "max_val", "age", "concurr", "typ_aprtmnt", "no_creds", "occupation",
   "no_dep", "telephone", "foreign_wkr"]

/-- The fields documented as categorical with a 1-based raw encoding
(the fields from which the transformer subtracts 1), i.e. the fields at
the feature positions registered in `german_cfi`. -/
def categoricalFieldNames : List String :=
  ["acct_bal", "value", "len_emp", "install_pc", "sex_married",
   "guarantors", "dur_addr", "max_val", "concurr", "typ_aprtmnt",
   "no_creds", "occupation", "no_dep", "telephone", "foreign_wkr"]

/-- The concrete raw record of the end-to-end scenario of §8 of the
spec (the first row of the german credit dataset). -/
def germanRow1 : RawRecord :=
  [("acct_bal", 1), ("dur_cred", 6), ("pay_stat", 4), ("purpose", 2),
   ("cred_amt", 1169), ("value", 5), ("len_emp", 5), ("install_pc", 4),
   ("sex_married", 3), ("guarantors", 1), ("dur_addr", 4), ("max_val", 2),
   ("age", 67), ("concurr", 3), ("typ_aprtmnt", 2), ("no_creds", 2),
   ("occupation", 3), ("no_dep", 1), ("telephone", 2), ("foreign_wkr", 1),
   ("cred", 1)]

/-- A trained decision-tree model, as returned by the external training
collaborator `DecisionTree.trainClassifier` (pyspark MLlib): a
prediction function plus the introspection accessors `depth()` and
`numNodes()` used by the sweep. -/
structure Model where
  predict : List Int → Int
  depth : Nat
  numNodes : Nat

/-- The misclassification-rate computation of the sweep body:

```python
te = lp_train.map(lambda lp: lp.label).zip(model.predict(lp_train.map(lambda lp: lp.features)))
train_err = te.filter(lambda (v, p): v != p).count() / float(te.count())
```

the number of examples whose prediction disagrees with the true label,
divided by the example count, as an exact rational. Python float
division raises `ZeroDivisionError` when the count is zero; that error
is modelled by `none`. -/
def misclassification_rate (model : Model) (examples : List LabeledPoint) :
    Option ℚ :=
  if examples.length = 0 then none
  else
    some (((examples.countP fun e => decide (model.predict e.features ≠ e.label)) : ℚ) /
      (examples.length : ℚ))

/-- Modelled from the spec: the notebook's split step
`(lp_train, lp_val) = lp.randomSplit([0.8, 0.2])` calls the external
library operation `RDD.randomSplit`, which is not part of this
repository. Per the spec, each call draws fresh randomness and assigns
every element of the dataset to exactly one of the two partitions. The
draws are modelled as an explicit Boolean stream `draw` indexed by
element position: `true` sends the element to the first (train)
partition, `false` to the second (validation) partition. -/
def randomSplitFrom (draw : Nat → Bool) (i : Nat) :
    List LabeledPoint → List LabeledPoint × List LabeledPoint
  | [] => ([], [])
  | x :: xs =>
    let rest := randomSplitFrom draw (i + 1) xs
    if draw i then (x :: rest.1, rest.2) else (rest.1, x :: rest.2)

/-- Modelled from the spec: `randomSplit` applied to a whole dataset,
starting the draw stream at position 0 (see `randomSplitFrom`). -/
def randomSplit (draw : Nat → Bool) (l : List LabeledPoint) :
    List LabeledPoint × List LabeledPoint :=
  randomSplitFrom draw 0 l

/-- One row of the sweep result table `val_dat`, appended by
`val_dat.loc[len(val_dat)] = [obs, model.depth(), model.numNodes(), train_err, val_err]`.
The `max_depth` column of the table holds the trained model's resulting
depth `model.depth()`, not the loop parameter. -/
structure SweepRow where
  obs : Nat
  max_depth : Nat
  num_nodes : Nat
  train_err : ℚ
  val_err : ℚ
deriving Repr, DecidableEq

/-- One iteration of the sweep body at trial `obs` and depth parameter
`max_depth`: split the dataset, train on the train partition, compute
both misclassification rates, and build the row. `draw` supplies the
randomness of this iteration's `randomSplit` call, and `trainClassifier`
stands for the external training collaborator
`DecisionTree.trainClassifier` (applied to the train partition and the
`maxDepth` parameter; the remaining arguments `numClasses=2`,
`categoricalFeaturesInfo=german_cfi`, `impurity='gini'`,
`minInstancesPerNode=10` are fixed at every call site). -/
def sweepIter (trainClassifier : List LabeledPoint → Nat → Model)
    (lp : List LabeledPoint) (draw : Nat → Bool) (obs max_depth : Nat) :
    Option SweepRow :=
  let parts := randomSplit draw lp
  let lp_train := parts.1
  let lp_val := parts.2
  let model := trainClassifier lp_train max_depth
  match misclassification_rate model lp_train,
      misclassification_rate model lp_val with
  | some train_err, some val_err =>
      some { obs := obs, max_depth := model.depth, num_nodes := model.numNodes,
             train_err := train_err, val_err := val_err }
  | _, _ => none

/-- The sweep loop body iterated over an explicit list of
`(obs, max_depth)` pairs, accumulating rows in order; the first failing
iteration aborts the sweep (its `none` propagates, discarding all
rows). `draws obs d` is the fresh randomness of the `randomSplit` call
of iteration `(obs, d)`. -/
def sweepRows (trainClassifier : List LabeledPoint → Nat → Model)
    (lp : List LabeledPoint) (draws : Nat → Nat → Nat → Bool) :
    List (Nat × Nat) → Option (List SweepRow)
  | [] => some []
  | (obs, d) :: rest =>
    match sweepIter trainClassifier lp (draws obs d) obs d,
        sweepRows trainClassifier lp draws rest with
    | some row, some rows => some (row :: rows)
    | _, _ => none

/-- The iteration sequence of the nested sweep loop, trials outer and
depth candidates inner:

```python
for obs in range(30):
  for max_depth in range(2,8):
```

generalized over the trial count and the depth-candidate list. -/
def sweepPairs (numTrials : Nat) (depths : List Nat) : List (Nat × Nat) :=
  (List.range numTrials).flatMap fun obs => depths.map fun d => (obs, d)

/-- The full hyperparameter sweep producing the result table `val_dat`:
30 trials over depth candidates `range(2,8) = [2,3,4,5,6,7]`. -/
def val_dat (trainClassifier : List LabeledPoint → Nat → Model)
    (lp : List LabeledPoint) (draws : Nat → Nat → Nat → Bool) :
    Option (List SweepRow) :=
  sweepRows trainClassifier lp draws (sweepPairs 30 (List.range' 2 6))

/-- The labeled example `german_lp` produces from `germanRow1`. -/
def germanRow1Lp : LabeledPoint :=
  { label := 1,
    features := [0, 6, 4, 2, 1169, 4, 4, 3, 2, 0, 3, 1, 67, 2, 1, 1, 2,
                 0, 1, 0] }

/-- A variant of `germanRow1` whose categorical field `acct_bal`
carries the out-of-range raw value 0 (the schema documents `acct_bal`
as 1-based); all 21 required fields are present. -/
def germanRow1AcctBal0 : RawRecord :=
  [("acct_bal", 0), ("dur_cred", 6), ("pay_stat", 4), ("purpose", 2),
   ("cred_amt", 1169), ("value", 5), ("len_emp", 5), ("install_pc", 4),
   ("sex_married", 3), ("guarantors", 1), ("dur_addr", 4), ("max_val", 2),
   ("age", 67), ("concurr", 3), ("typ_aprtmnt", 2), ("no_creds", 2),
   ("occupation", 3), ("no_dep", 1), ("telephone", 2), ("foreign_wkr", 1),
   ("cred", 1)]

/-- A concrete stand-in for the external training collaborator, used to
instantiate the sweep theorems: it predicts class 0 everywhere and
reports depth 1 and 3 nodes. -/
def demoModel : Model :=
  { predict := fun _ => 0, depth := 1, numNodes := 3 }

/-- A concrete training function returning `demoModel` for every
training set and depth parameter. -/
def demoTrain : List LabeledPoint → Nat → Model :=
  fun _ _ => demoModel

/-- A concrete two-example dataset. -/
def demoLp : List LabeledPoint :=
  [{ label := 0, features := [0] }, { label := 1, features := [1] }]

/-- A concrete draw family sending element 0 to the train partition and
every other element to the validation partition, in every iteration. -/
def demoDraws : Nat → Nat → Nat → Bool :=
  fun _ _ n => n == 0

/-- C1: for the raw record `germanRow1` (with label field `cred`), the
record transformer `german_lp` returns the labeled example with label 1
and feature vector `[0,6,4,2,1169,4,4,3,2,0,3,1,67,2,1,1,2,0,1,0]`. -/
theorem german_lp_germanRow1 :
    german_lp germanRow1 =
      some { label := 1,
             features := [0, 6, 4, 2, 1169, 4, 4, 3, 2, 0, 3, 1, 67, 2, 1,
                          1, 2, 0, 1, 0] } := by
  rfl

/-- Helper: `misclassification_rate` returns `none` exactly on the
empty example list. -/
theorem misclassification_rate_eq_none_iff (m : Model)
    (ex : List LabeledPoint) :
    misclassification_rate m ex = none ↔ ex = [] := by
  constructor
  · intro hm
    by_contra hne
    have hlen : ex.length ≠ 0 := by simp [List.length_eq_zero, hne]
    simp [misclassification_rate, hlen] at hm
  · intro he
    subst he
    simp [misclassification_rate]

/-- Helper: on a non-empty example list, `misclassification_rate`
succeeds. -/
theorem misclassification_rate_isSome (m : Model) (ex : List LabeledPoint)
    (h : ex ≠ []) : (misclassification_rate m ex).isSome = true := by
  rw [Option.isSome_iff_ne_none, Ne, misclassification_rate_eq_none_iff]
  exact h

/-- Helper: when both partitions produced by this iteration's
`randomSplit` call are non-empty, the sweep iteration succeeds. -/
theorem sweepIter_isSome_of (tc : List LabeledPoint → Nat → Model)
    (lp : List LabeledPoint) (draw : Nat → Bool) (obs d : Nat)
    (h1 : (randomSplit draw lp).1 ≠ []) (h2 : (randomSplit draw lp).2 ≠ []) :
    (sweepIter tc lp draw obs d).isSome = true := by
  obtain ⟨r1, hr1⟩ := Option.isSome_iff_exists.mp
    (misclassification_rate_isSome (tc (randomSplit draw lp).1 d)
      (randomSplit draw lp).1 h1)
  obtain ⟨r2, hr2⟩ := Option.isSome_iff_exists.mp
    (misclassification_rate_isSome (tc (randomSplit draw lp).1 d)
      (randomSplit draw lp).2 h2)
  simp [sweepIter, hr1, hr2]

/-- C3: for every model and non-empty list of labeled examples,
`misclassification_rate` equals the number of examples whose predicted
label disagrees with the true label divided by the example count; in
particular it returns 0 when every prediction matches its label and 1
when every prediction differs from its label. -/
theorem misclassification_rate_spec (m : Model) (ex : List LabeledPoint)
    (h : ex ≠ []) :
    misclassification_rate m ex =
      some ((((ex.filter fun e => decide (m.predict e.features ≠ e.label)).length : ℚ)) /
        (ex.length : ℚ)) ∧
    ((∀ e ∈ ex, m.predict e.features = e.label) →
      misclassification_rate m ex = some 0) ∧
    ((∀ e ∈ ex, m.predict e.features ≠ e.label) →
      misclassification_rate m ex = some 1) := by
  have hlen : ex.length ≠ 0 := by simp [List.length_eq_zero, h]
  refine ⟨?_, ?_, ?_⟩
  · simp [misclassification_rate, hlen, List.countP_eq_length_filter]
  · intro hall
    have hc : ex.countP (fun e => !decide (m.predict e.features = e.label)) = 0 := by
      rw [List.countP_eq_zero]
      intro a ha
      simp [hall a ha]
    simp [misclassification_rate, hlen, hc]
  · intro hall
    have hc : ex.countP (fun e => !decide (m.predict e.features = e.label)) = ex.length := by
      rw [List.countP_eq_length]
      intro a ha
      simp [hall a ha]
    have hq : (ex.length : ℚ) ≠ 0 := Nat.cast_ne_zero.mpr hlen
    simp [misclassification_rate, hlen, hc, div_self hq]

/-- C4: `misclassification_rate` fails exactly when its example
partition is empty, and under the precondition that every iteration's
train and validation partitions are non-empty, every sweep iteration
succeeds (the error branch is unreachable). -/
theorem misclassification_rate_fail_iff_empty
    (tc : List LabeledPoint → Nat → Model) (lp : List LabeledPoint)
    (draws : Nat → Nat → Nat → Bool)
    (h : ∀ obs d, (randomSplit (draws obs d) lp).1 ≠ [] ∧
      (randomSplit (draws obs d) lp).2 ≠ []) :
    (∀ (m : Model) (ex : List LabeledPoint),
      misclassification_rate m ex = none ↔ ex = []) ∧
    (∀ obs d, (sweepIter tc lp (draws obs d) obs d).isSome = true) := by
  refine ⟨misclassification_rate_eq_none_iff, ?_⟩
  intro obs d
  exact sweepIter_isSome_of tc lp (draws obs d) obs d (h obs d).1 (h obs d).2

/-- Helper: when every listed iteration succeeds, `sweepRows` succeeds
and produces one row per iteration pair, in list order. -/
theorem sweepRows_eq_some (tc : List LabeledPoint → Nat → Model)
    (lp : List LabeledPoint) (draws : Nat → Nat → Nat → Bool)
    (l : List (Nat × Nat))
    (h : ∀ p ∈ l, (sweepIter tc lp (draws p.1 p.2) p.1 p.2).isSome = true) :
    ∃ rows, sweepRows tc lp draws l = some rows ∧
      rows.length = l.length ∧
      ∀ k : Nat, rows[k]? =
        l[k]?.bind fun p => sweepIter tc lp (draws p.1 p.2) p.1 p.2 := by
  induction l with
  | nil => exact ⟨[], rfl, rfl, fun k => by simp⟩
  | cons p rest ih =>
    obtain ⟨row, hrow⟩ := Option.isSome_iff_exists.mp
      (h p (List.mem_cons_self p rest))
    obtain ⟨rows, hr1, hr2, hr3⟩ :=
      ih (fun q hq => h q (List.mem_cons_of_mem p hq))
    obtain ⟨a, b⟩ := p
    refine ⟨row :: rows, ?_, by simp [hr2], ?_⟩
    · simp only [sweepRows]
      rw [hrow, hr1]
    · intro k
      cases k with
      | zero => simp [hrow]
      | succ k => simpa using hr3 k

/-- Helper: the nested loop `for obs in range(30): for max_depth in
range(2,8)` visits exactly 180 iteration pairs. -/
theorem sweepPairs_length : (sweepPairs 30 (List.range' 2 6)).length = 180 := by
  rfl

set_option maxRecDepth 8000 in
/-- Helper: the iteration pair at position `6 * i + j` of the nested
loop is trial `i` with depth candidate `2 + j`. -/
theorem sweepPairs_getElem :
    ∀ i < 30, ∀ j < 6,
      (sweepPairs 30 (List.range' 2 6))[6 * i + j]? = some (i, 2 + j) := by
  decide

/-- C2: running the sweep with depth candidates `{2,...,7}` and 30
trials produces a table of exactly 180 rows in nested-loop order
(trials outer, depths inner): for `i < 30` and `j < 6`, row `6*i + j`
is the row the sweep body builds at trial `i` and depth `2 + j` (its
fields are the trial index, the trained model's `depth()` and
`numNodes()`, and the two misclassification rates; see `sweepIter`). -/
theorem val_dat_shape (tc : List LabeledPoint → Nat → Model)
    (lp : List LabeledPoint) (draws : Nat → Nat → Nat → Bool)
    (h : ∀ obs d, (randomSplit (draws obs d) lp).1 ≠ [] ∧
      (randomSplit (draws obs d) lp).2 ≠ []) :
    ∃ rows, val_dat tc lp draws = some rows ∧
      rows.length = 180 ∧
      ∀ i < 30, ∀ j < 6,
        rows[6 * i + j]? = sweepIter tc lp (draws i (2 + j)) i (2 + j) := by
  obtain ⟨rows, hr1, hr2, hr3⟩ := sweepRows_eq_some tc lp draws
    (sweepPairs 30 (List.range' 2 6))
    (fun p _ => sweepIter_isSome_of tc lp (draws p.1 p.2) p.1 p.2
      (h p.1 p.2).1 (h p.1 p.2).2)
  refine ⟨rows, hr1, by rw [hr2, sweepPairs_length], ?_⟩
  intro i hi j hj
  rw [hr3 (6 * i + j), sweepPairs_getElem i hi j hj]
  rfl

/-- Helper: `randomSplitFrom` assigns every element to exactly one of
the two partitions, so the partition sizes sum to the input length. -/
theorem randomSplitFrom_length (draw : Nat → Bool) (i : Nat)
    (l : List LabeledPoint) :
    (randomSplitFrom draw i l).1.length +
      (randomSplitFrom draw i l).2.length = l.length := by
  induction l generalizing i with
  | nil => rfl
  | cons x xs ih =>
    simp only [randomSplitFrom]
    have := ih (i + 1)
    split <;> (simp only [List.length_cons]; omega)

/-- C9: for every dataset and every random draw, the two partitions
returned by `randomSplit` have sizes summing to the dataset size;
moreover different draws can yield different partitions
(non-determinism across calls), while every call respects the same
total. -/
theorem randomSplit_total (draw : Nat → Bool) (l : List LabeledPoint) :
    (randomSplit draw l).1.length + (randomSplit draw l).2.length =
      l.length ∧
    ∃ d1 d2 : Nat → Bool, ∃ m : List LabeledPoint,
      randomSplit d1 m ≠ randomSplit d2 m := by
  refine ⟨randomSplitFrom_length draw 0 l, fun _ => true, fun _ => false,
    [{ label := 0, features := [] }], ?_⟩
  decide

/-- C6: whenever the record transformer succeeds, the feature vector it
produces has fixed length 20 (the schema's 21 fields minus the label
field `cred`). -/
theorem german_lp_features_length (r : RawRecord) (lp : LabeledPoint)
    (h : german_lp r = some lp) : lp.features.length = 20 := by
  unfold german_lp at h
  split at h
  · cases h; rfl
  all_goals simp at h

/-- C8: the record transformer succeeds exactly when every required
field (the 20 feature fields and the label field `cred`) is present in
the input record; a missing field is the only failure (the `KeyError`
schema error), and the transformer is a pure function of its input. -/
theorem german_lp_isSome_iff (r : RawRecord) :
    (german_lp r).isSome = true ↔
      ∀ f ∈ requiredFields, (List.lookup f r).isSome = true := by
  constructor
  · intro h
    rw [Option.isSome_iff_exists] at h
    obtain ⟨lp, h⟩ := h
    unfold german_lp at h
    split at h
    · intro f hf
      fin_cases hf <;> simp [*]
    · simp at h
  · intro hall
    have hs : ∀ f ∈ requiredFields, ∃ v, List.lookup f r = some v := by
      intro f hf
      exact Option.isSome_iff_exists.mp (hall f hf)
    obtain ⟨v0, h0⟩ := hs "cred" (by simp [requiredFields])
    obtain ⟨v1, h1⟩ := hs "acct_bal" (by simp [requiredFields])
    obtain ⟨v2, h2⟩ := hs "dur_cred" (by simp [requiredFields])
    obtain ⟨v3, h3⟩ := hs "pay_stat" (by simp [requiredFields])
    obtain ⟨v4, h4⟩ := hs "purpose" (by simp [requiredFields])
    obtain ⟨v5, h5⟩ := hs "cred_amt" (by simp [requiredFields])
    obtain ⟨v6, h6⟩ := hs "value" (by simp [requiredFields])
    obtain ⟨v7, h7⟩ := hs "len_emp" (by simp [requiredFields])
    obtain ⟨v8, h8⟩ := hs "install_pc" (by simp [requiredFields])
    obtain ⟨v9, h9⟩ := hs "sex_married" (by simp [requiredFields])
    obtain ⟨v10, h10⟩ := hs "guarantors" (by simp [requiredFields])
    obtain ⟨v11, h11⟩ := hs "dur_addr" (by simp [requiredFields])
    obtain ⟨v12, h12⟩ := hs "max_val" (by simp [requiredFields])
    obtain ⟨v13, h13⟩ := hs "age" (by simp [requiredFields])
    obtain ⟨v14, h14⟩ := hs "concurr" (by simp [requiredFields])
    obtain ⟨v15, h15⟩ := hs "typ_aprtmnt" (by simp [requiredFields])
    obtain ⟨v16, h16⟩ := hs "no_creds" (by simp [requiredFields])
    obtain ⟨v17, h17⟩ := hs "occupation" (by simp [requiredFields])
    obtain ⟨v18, h18⟩ := hs "no_dep" (by simp [requiredFields])
    obtain ⟨v19, h19⟩ := hs "telephone" (by simp [requiredFields])
    obtain ⟨v20, h20⟩ := hs "foreign_wkr" (by simp [requiredFields])
    simp [german_lp, h0, h1, h2, h3, h4, h5, h6, h7, h8, h9, h10, h11,
      h12, h13, h14, h15, h16, h17, h18, h19, h20]

/-- C7: every feature index in the registry `german_cfi` is a valid
position in the feature vector the transformer produces, and every
registered cardinality is at least 2; hence the sweep never hands
`trainClassifier` a categorical index outside `[0, feature_count)`. -/
theorem german_cfi_valid (r : RawRecord) (lp : LabeledPoint)
    (h : german_lp r = some lp) :
    ∀ p ∈ german_cfi, p.1 < lp.features.length ∧ 2 ≤ p.2 := by
  unfold german_lp at h
  split at h
  · cases h
    intro p hp
    fin_cases hp <;> simp
  all_goals simp at h

/-- C10: the registry's key set is exactly
`{0,5,6,7,8,9,10,11,13,14,15,16,17,18,19}`, and for every record the
transformer accepts, feature slot `i` holds the raw value of the `i`-th
feature field minus 1 exactly when `i` is registered in `german_cfi`
(and the unadjusted slots 1, 2, 3, 4, 12 are exactly the continuous
ones, with offset 0). -/
theorem german_lp_minus_one_iff_registered (r : RawRecord)
    (lp : LabeledPoint) (h : german_lp r = some lp) :
    german_cfi.map Prod.fst =
      [0, 5, 6, 7, 8, 9, 10, 11, 13, 14, 15, 16, 17, 18, 19] ∧
    ∀ i < 20, ∀ f v, featureFieldNames[i]? = some f →
      List.lookup f r = some v →
      lp.features[i]? =
        some (v - if (german_cfi.lookup i).isSome then 1 else 0) := by
  refine ⟨by decide, ?_⟩
  unfold german_lp at h
  split at h
  · cases h
    intro i hi f v hf hv
    interval_cases i <;>
      (simp only [featureFieldNames, List.getElem?_cons_zero,
        List.getElem?_cons_succ, Option.some.injEq] at hf
       subst hf) <;>
      simp_all [german_cfi]
  all_goals simp at h

/-- C5 (amended): for every raw record with all required fields
present whose categorical fields (the 1-based-encoded fields) carry raw
values at least 1, every feature slot registered in `german_cfi` is
non-negative in the transformer's output. -/
theorem german_lp_categorical_nonneg (r : RawRecord) (lp : LabeledPoint)
    (h : german_lp r = some lp)
    (hpos : ∀ f ∈ categoricalFieldNames, 1 ≤ (List.lookup f r).getD 1) :
    ∀ p ∈ german_cfi, 0 ≤ lp.features.getD p.1 0 := by
  simp only [categoricalFieldNames, List.forall_mem_cons,
    List.forall_mem_nil, and_true] at hpos
  obtain ⟨q1, q2, q3, q4, q5, q6, q7, q8, q9, q10, q11, q12, q13, q14,
    q15⟩ := hpos
  unfold german_lp at h
  split at h
  · cases h
    intro p hp
    fin_cases hp <;> simp_all
  all_goals simp at h

/-- C5 (counterexample to the claim as stated): the record
`germanRow1AcctBal0` has all required fields present, yet at the
registered categorical feature position 0 the transformer outputs the
negative value -1 (the source subtracts 1 unconditionally, without
validating that the raw value is at least 1). -/
theorem german_lp_categorical_nonneg_cex :
    (0, 4) ∈ german_cfi ∧
    german_lp germanRow1AcctBal0 =
      some { label := 1,
             features := [-1, 6, 4, 2, 1169, 4, 4, 3, 2, 0, 3, 1, 67, 2,
                          1, 1, 2, 0, 1, 0] } ∧
    ¬ (0 : Int) ≤ (-1 : Int) := by
  refine ⟨by decide, by rfl, by decide⟩

/-- Witness for C2: the sweep shape theorem instantiated at the
concrete training function, dataset and draw family. -/
theorem val_dat_shape_witness :
    ∃ rows, val_dat demoTrain demoLp demoDraws = some rows ∧
      rows.length = 180 ∧
      ∀ i < 30, ∀ j < 6,
        rows[6 * i + j]? =
          sweepIter demoTrain demoLp (demoDraws i (2 + j)) i (2 + j) :=
  val_dat_shape demoTrain demoLp demoDraws
    (fun obs d => by
      simp [demoDraws, demoLp, randomSplit, randomSplitFrom])

/-- Witness for C3: the misclassification-rate specification
instantiated at the concrete model and two-example dataset. -/
theorem misclassification_rate_spec_witness :
    misclassification_rate demoModel demoLp =
      some ((((demoLp.filter fun e =>
        decide (demoModel.predict e.features ≠ e.label)).length : ℚ)) /
        (demoLp.length : ℚ)) ∧
    ((∀ e ∈ demoLp, demoModel.predict e.features = e.label) →
      misclassification_rate demoModel demoLp = some 0) ∧
    ((∀ e ∈ demoLp, demoModel.predict e.features ≠ e.label) →
      misclassification_rate demoModel demoLp = some 1) :=
  misclassification_rate_spec demoModel demoLp (by decide)

/-- Witness for C4: the failure characterization instantiated at the
concrete training function, dataset and draw family. -/
theorem misclassification_rate_fail_iff_empty_witness :
    (∀ (m : Model) (ex : List LabeledPoint),
      misclassification_rate m ex = none ↔ ex = []) ∧
    (∀ obs d,
      (sweepIter demoTrain demoLp (demoDraws obs d) obs d).isSome = true) :=
  misclassification_rate_fail_iff_empty demoTrain demoLp demoDraws
    (fun obs d => by
      simp [demoDraws, demoLp, randomSplit, randomSplitFrom])

/-- Witness for C5 (amended): the non-negativity theorem instantiated
at the concrete record `germanRow1` (whose categorical raw values are
all at least 1) and the registry entry `(0, 4)`. -/
theorem german_lp_categorical_nonneg_witness :
    0 ≤ germanRow1Lp.features.getD 0 0 :=
  german_lp_categorical_nonneg germanRow1 germanRow1Lp rfl (by decide)
    (0, 4) (by decide)

/-- Witness for C6: the length theorem instantiated at `germanRow1`. -/
theorem german_lp_features_length_witness :
    germanRow1Lp.features.length = 20 :=
  german_lp_features_length germanRow1 germanRow1Lp rfl

/-- Witness for C7: the registry validity theorem instantiated at
`germanRow1` and the registry entry `(0, 4)`. -/
theorem german_cfi_valid_witness :
    0 < germanRow1Lp.features.length ∧ 2 ≤ 4 :=
  german_cfi_valid germanRow1 germanRow1Lp rfl (0, 4) (by decide)

/-- Witness for C8: the success characterization applied at
`germanRow1`, whose 21 required fields are all present. -/
theorem german_lp_isSome_iff_witness :
    (german_lp germanRow1).isSome = true :=
  (german_lp_isSome_iff germanRow1).mpr (by decide)

/-- Witness for C9: the size theorem instantiated at a concrete draw
and the two-example dataset. -/
theorem randomSplit_total_witness :
    (randomSplit (fun n => n == 0) demoLp).1.length +
      (randomSplit (fun n => n == 0) demoLp).2.length = demoLp.length :=
  (randomSplit_total (fun n => n == 0) demoLp).1

/-- Witness for C10: the adjustment characterization instantiated at
`germanRow1`. -/
theorem german_lp_minus_one_iff_registered_witness :
    german_cfi.map Prod.fst =
      [0, 5, 6, 7, 8, 9, 10, 11, 13, 14, 15, 16, 17, 18, 19] ∧
    ∀ i < 20, ∀ f v, featureFieldNames[i]? = some f →
      List.lookup f germanRow1 = some v →
      germanRow1Lp.features[i]? =
        some (v - if (german_cfi.lookup i).isSome then 1 else 0) :=
  german_lp_minus_one_iff_registered germanRow1 germanRow1Lp rfl
